import Mathlib

/-!
Shallow embedding of the SiteSage crawl-and-score pipeline
(src/backend/app/crawler.py and src/backend/app/seo_scorer.py).

Python strings are modelled as Lean Strings; the Python str methods used by
the code (strip, startswith, len) are given explicit executable models over
the character list so that every definition reduces in the kernel.  Python
float arithmetic in the scorer is modelled exactly over the rationals.
BeautifulSoup parsing and the network are external collaborators: a parsed
page is a structure of the element lists the extractors walk, and the
network is an oracle assigning each URL a probe outcome.
-/

namespace SiteSage

/-- Model of Python str.strip: drop whitespace from both ends. -/
def pyStrip (s : String) : String :=
  ⟨((s.data.dropWhile Char.isWhitespace).reverse.dropWhile Char.isWhitespace).reverse⟩

/-- Model of Python str.startswith on character lists. -/
def leadsWith : List Char → List Char → Bool
  | [], _ => true
  | _, [] => false
  | p :: ps, c :: cs => p = c && leadsWith ps cs

/-- Model of Python str.startswith: does s start with pat. -/
def strStarts (s pat : String) : Bool :=
  leadsWith pat.data s.data

/-- Helper for urlparse: split a character list at the first "://",
returning the scheme part and the remainder after the separator. -/
def splitSchemeAux : List Char → Option (List Char × List Char)
  | ':' :: '/' :: '/' :: rest => some ([], rest)
  | c :: rest => (splitSchemeAux rest).map (fun p => (c :: p.1, p.2))
  | [] => none

/-- Characters ending the authority component of a URL. -/
def hostEnd (c : Char) : Bool :=
  c != '/' && c != '?' && c != '#'

/-- Model of Python urllib.parse.urlparse(url).netloc for the URL shapes this
development exercises: the authority is the run of characters after the first
"://" up to the next '/', '?' or '#'; a URL with no "://" has empty netloc.
Letter case is preserved, as urlparse preserves it. -/
def netloc (url : String) : String :=
  match splitSchemeAux url.data with
  | some (_, rest) => ⟨rest.takeWhile hostEnd⟩
  | none => ""

/-- Helper for urljoin: keep a path through its last '/', or "/" when the
path has no slash. -/
def dirSlash (path : List Char) : List Char :=
  match path.reverse.dropWhile (fun c => c != '/') with
  | [] => ['/']
  | l => l.reverse

/-- Model of Python urllib.parse.urljoin restricted to the URL shapes this
development exercises: an href that already carries a scheme is returned
unchanged; a scheme-relative href inherits the base's scheme; a root-relative
href is resolved against the base's authority; any other href is resolved
against the base's directory. -/
def urljoin (base href : String) : String :=
  if (splitSchemeAux href.data).isSome then href
  else
    match splitSchemeAux base.data with
    | none => href
    | some (scheme, rest) =>
      let host := rest.takeWhile hostEnd
      if strStarts href "//" then ⟨scheme⟩ ++ ":" ++ href
      else if strStarts href "/" then ⟨scheme⟩ ++ "://" ++ ⟨host⟩ ++ href
      else ⟨scheme⟩ ++ "://" ++ ⟨host⟩ ++ ⟨dirSlash (rest.drop host.length)⟩ ++ href

/-- An img element as the extractor sees it: the src and alt attributes,
each defaulting to the empty string when absent (img.get in the source). -/
structure Img where
  src : String
  alt : String
deriving DecidableEq

/-- An anchor element with an href attribute (soup.find_all('a', href=True))
and its rendered text. -/
structure Anchor where
  href : String
  text : String
deriving DecidableEq

/-- A parsed page: the element lists the private extractors of WebCrawler
walk.  metaDesc / ogDesc: some c when a matching meta tag exists, where c is
its content attribute (none when the attribute is missing). -/
structure Page where
  titles : List String
  metaDesc : Option (Option String)
  ogDesc : Option (Option String)
  h1s : List String
  h2s : List String
  imgs : List Img
  anchors : List Anchor
deriving DecidableEq

/-- WebCrawler._extract_title: text of the first title element, trimmed;
none when the page has no title element. -/
def extract_title (titles : List String) : Option String :=
  match titles with
  | [] => none
  | t :: _ => some (pyStrip t)

/-- WebCrawler._extract_meta_description: content of meta[name=description],
falling back to meta[property=og:description]; the content attribute
defaults to the empty string and is stripped; none when neither tag exists. -/
def extract_meta_description (p : Page) : Option String :=
  match p.metaDesc with
  | some content => some (pyStrip (content.getD ""))
  | none =>
    match p.ogDesc with
    | some content => some (pyStrip (content.getD ""))
    | none => none

/-- WebCrawler._extract_headings: trimmed text of every element of the tag,
in document order, skipping elements whose trimmed text is empty. -/
def extract_headings (hs : List String) : List String :=
  (hs.map pyStrip).filter (fun h => h != "")

/-- An ImageRecord as built by WebCrawler._extract_images. -/
structure ImageRecord where
  src : String
  alt : String
  has_alt : Bool
deriving DecidableEq

/-- The dictionary returned by WebCrawler._extract_images. -/
structure ImagesData where
  images : List ImageRecord
  total_images : Nat
  images_without_alt : Nat
deriving DecidableEq

/-- Loop body of WebCrawler._extract_images: walk the img elements in
document order, keeping those with a non-empty src, resolving src against
the base URL, deriving has_alt = bool(alt and alt.strip()), and counting
the records whose has_alt is false. -/
def extractImagesAux (base_url : String) : List Img → List ImageRecord × Nat
  | [] => ([], 0)
  | img :: rest =>
    let tail := extractImagesAux base_url rest
    if img.src != "" then
      let has_alt := img.alt != "" && pyStrip img.alt != ""
      ({ src := urljoin base_url img.src, alt := img.alt, has_alt := has_alt } :: tail.1,
       if has_alt then tail.2 else tail.2 + 1)
    else tail

/-- WebCrawler._extract_images. -/
def extract_images (base_url : String) (imgs : List Img) : ImagesData :=
  let r := extractImagesAux base_url imgs
  { images := r.1, total_images := r.1.length, images_without_alt := r.2 }

/-- A link dictionary built by WebCrawler._extract_links: absolute URL and
trimmed anchor text. -/
structure LinkData where
  url : String
  text : String
deriving DecidableEq

/-- The dictionary returned by WebCrawler._extract_links. -/
structure LinksData where
  internal_links : List LinkData
  external_links : List LinkData
  all_links : List LinkData
  total_links : Nat
deriving DecidableEq

/-- Loop body of WebCrawler._extract_links: strip each href, skip empty,
bare-fragment and javascript: hrefs, resolve the rest against the base URL,
and classify by comparing the resolved URL's netloc to the base URL's netloc
with Python string equality (exact, case-sensitive). -/
def extractLinksAux (base_url : String) : List Anchor → List LinkData × List LinkData
  | [] => ([], [])
  | a :: rest =>
    let tail := extractLinksAux base_url rest
    let href := pyStrip a.href
    if href == "" || strStarts href "#" || strStarts href "javascript:" then tail
    else
      let absolute_url := urljoin base_url href
      let link_data : LinkData := { url := absolute_url, text := pyStrip a.text }
      if netloc absolute_url = netloc base_url then (link_data :: tail.1, tail.2)
      else (tail.1, link_data :: tail.2)

/-- WebCrawler._extract_links. -/
def extract_links (base_url : String) (anchors : List Anchor) : LinksData :=
  let r := extractLinksAux base_url anchors
  { internal_links := r.1, external_links := r.2,
    all_links := r.1 ++ r.2, total_links := r.1.length + r.2.length }

/-- Outcome of one HEAD probe against a URL: either the server resolved the
request with a status code, or the probe raised (timeout, refused connection,
any exception). -/
inductive ProbeOutcome where
  | status (code : Nat)
  | failure
deriving DecidableEq

/-- A broken-link dictionary as built by WebCrawler._check_broken_links:
status_code 0 together with the error marker records a probe failure. -/
structure BrokenLink where
  url : String
  status_code : Nat
  text : String
  error : Option String
deriving DecidableEq

/-- Inner coroutine check_link of WebCrawler._check_broken_links: probe the
link's URL; a status of at least 400 yields a broken record with that status;
a raised exception is caught and converted to a record with status_code 0 and
the marker "Connection failed"; any other status yields None. -/
def check_link (probe : String → ProbeOutcome) (link_data : LinkData) : Option BrokenLink :=
  match probe link_data.url with
  | .status code =>
    if code ≥ 400 then
      some { url := link_data.url, status_code := code, text := link_data.text, error := none }
    else none
  | .failure =>
    some { url := link_data.url, status_code := 0, text := link_data.text,
           error := some "Connection failed" }

/-- WebCrawler._check_broken_links: probe every link of the batch (gather
preserves task order), then keep the non-None results.  check_link never
raises, so the isinstance(r, Exception) filter of the source never fires. -/
def check_broken_links (probe : String → ProbeOutcome) (links : List LinkData) :
    List BrokenLink :=
  (links.map (check_link probe)).filterMap id

/-- The seo_data dictionary assembled by WebCrawler.crawl. -/
structure SeoData where
  title : Option String
  meta_description : Option String
  h1_tags : List String
  h2_tags : List String
  images : ImagesData
  links : LinksData
  load_time : ℚ
  page_size : Nat
  broken_links : List BrokenLink
deriving DecidableEq

/-- Body of WebCrawler.crawl after a successful fetch and parse: run the
extractors, then check the first 50 entries of the combined link list. -/
def assemble (url html : String) (load_time : ℚ) (page : Page)
    (probe : String → ProbeOutcome) : SeoData :=
  { title := extract_title page.titles,
    meta_description := extract_meta_description page,
    h1_tags := extract_headings page.h1s,
    h2_tags := extract_headings page.h2s,
    images := extract_images url page.imgs,
    links := extract_links url page.anchors,
    load_time := load_time,
    page_size := html.utf8ByteSize,
    broken_links := check_broken_links probe
      ((extract_links url page.anchors).all_links.take 50) }

/-- WebCrawler.crawl: fetch the page (the fetch collaborator yields the HTML
text and the elapsed wall-clock time, or a failure message), parse it (the
BeautifulSoup collaborator yields a Page or a failure message), extract and
validate; any stage failure is caught by the single try and re-raised as one
generic exception whose message prepends "Failed to crawl URL: ". -/
def crawl (url : String) (fetch : Except String (String × ℚ))
    (parse : String → Except String Page) (probe : String → ProbeOutcome) :
    Except String SeoData :=
  match fetch with
  | .error e => .error ("Failed to crawl URL: " ++ e)
  | .ok (html, load_time) =>
    match parse html with
    | .error e => .error ("Failed to crawl URL: " ++ e)
    | .ok page => .ok (assemble url html load_time page probe)

/-- SEOScorer._score_title. -/
def score_title : Option String → ℚ
  | none => 0
  | some title =>
    if title = "" then 0
    else
      let score : ℚ := 100
      let score := if title.length < 30 then score - 30
                   else if title.length > 60 then score - 20
                   else score
      max 0 score

/-- SEOScorer._score_meta_description. -/
def score_meta_description : Option String → ℚ
  | none => 0
  | some description =>
    if description = "" then 0
    else
      let score : ℚ := 100
      let score := if description.length < 120 then score - 30
                   else if description.length > 160 then score - 20
                   else score
      max 0 score

/-- SEOScorer._score_headings. -/
def score_headings (h1_tags h2_tags : List String) : ℚ :=
  let score : ℚ := 100
  let score := if h1_tags.isEmpty then score - 50
               else if h1_tags.length > 1 then score - 20
               else score
  let score := if h2_tags.isEmpty then score - 30 else score
  max 0 score

/-- SEOScorer._score_images. -/
def score_images (images_data : ImagesData) : ℚ :=
  if images_data.total_images = 0 then 70
  else ((images_data.total_images : ℚ) - images_data.images_without_alt)
        / images_data.total_images * 100

/-- SEOScorer._score_links. -/
def score_links (links_data : LinksData) (broken_links : List BrokenLink) : ℚ :=
  if links_data.total_links = 0 then 50
  else
    let working_links_pct :=
      ((links_data.total_links : ℚ) - broken_links.length) / links_data.total_links * 100
    let score := working_links_pct
    if ¬ links_data.internal_links.isEmpty then min 100 (score + 10) else score

/-- SEOScorer._score_performance.  Python falsiness of the load_time and
page_size guards is modelled as being nonzero. -/
def score_performance (load_time : ℚ) (page_size : Nat) : ℚ :=
  let score : ℚ := 100
  let score := if load_time ≠ 0 then
                 (if load_time > 3 then score - 40
                  else if load_time > 2 then score - 20
                  else if load_time > 1 then score - 10
                  else score)
               else score
  let score := if page_size ≠ 0 then
                 (let size_mb : ℚ := (page_size : ℚ) / (1024 * 1024)
                  if size_mb > 2 then score - 30
                  else if size_mb > 3 / 2 then score - 15
                  else score)
               else score
  max 0 score

/-- SEOScorer._get_grade. -/
def get_grade (score : ℚ) : String :=
  if score ≥ 90 then "A"
  else if score ≥ 80 then "B"
  else if score ≥ 70 then "C"
  else if score ≥ 60 then "D"
  else "F"

/-- Round a rational to the nearest integer, ties to even, modelling the
rounding mode of Python's builtin round applied to an exactly represented
value. -/
def roundHalfEven (q : ℚ) : ℤ :=
  if q - (⌊q⌋ : ℚ) < 1 / 2 then ⌊q⌋
  else if 1 / 2 < q - (⌊q⌋ : ℚ) then ⌊q⌋ + 1
  else if ⌊q⌋ % 2 = 0 then ⌊q⌋ else ⌊q⌋ + 1

/-- Model of Python round(x, 2) over exact rationals. -/
def round2 (q : ℚ) : ℚ :=
  ((roundHalfEven (q * 100) : ℤ) : ℚ) / 100

/-- The six category scores (the scores dictionary of
SEOScorer.calculate_score). -/
structure Breakdown where
  title : ℚ
  meta_description : ℚ
  headings : ℚ
  images : ℚ
  links : ℚ
  performance : ℚ
deriving DecidableEq

/-- The scores dictionary computed by SEOScorer.calculate_score. -/
def breakdown (d : SeoData) : Breakdown :=
  { title := score_title d.title,
    meta_description := score_meta_description d.meta_description,
    headings := score_headings d.h1_tags d.h2_tags,
    images := score_images d.images,
    links := score_links d.links d.broken_links,
    performance := score_performance d.load_time d.page_size }

/-- The weighted total of SEOScorer.calculate_score: each category score
times WEIGHTS[category] / 100, summed in dictionary insertion order. -/
def total_score (d : SeoData) : ℚ :=
  (breakdown d).title * (15 / 100) + (breakdown d).meta_description * (15 / 100)
    + (breakdown d).headings * (20 / 100) + (breakdown d).images * (20 / 100)
    + (breakdown d).links * (15 / 100) + (breakdown d).performance * (15 / 100)

/-- Format a non-negative rational as Python's f-string with two decimal
places does (used by the slow-load-time issue message). -/
def format2 (q : ℚ) : String :=
  let n := roundHalfEven (q * 100)
  toString (n / 100) ++ "." ++ (if n % 100 < 10 then "0" else "") ++ toString (n % 100)

/-- SEOScorer._identify_issues (the scores argument is unused in the
source as well). -/
def identify_issues (d : SeoData) (_scores : Breakdown) : List String :=
  (match d.title with
   | none => ["Missing page title"]
   | some t =>
     if t = "" then ["Missing page title"]
     else if t.length > 60 then ["Page title too long (>60 characters)"]
     else [])
  ++ (match d.meta_description with
      | none => ["Missing meta description"]
      | some m => if m = "" then ["Missing meta description"] else [])
  ++ (if d.h1_tags.isEmpty then ["Missing H1 heading"]
      else if d.h1_tags.length > 1 then
        ["Multiple H1 headings found (" ++ toString d.h1_tags.length ++ ")"]
      else [])
  ++ (if d.images.images_without_alt > 0 then
        [toString d.images.images_without_alt ++ " images missing alt text"]
      else [])
  ++ (if ¬ d.broken_links.isEmpty then
        [toString d.broken_links.length ++ " broken links detected"]
      else [])
  ++ (if d.load_time > 3 then ["Slow load time (" ++ format2 d.load_time ++ "s)"] else [])

/-- The dictionary returned by SEOScorer.calculate_score. -/
structure ScoreResult where
  overall_score : ℚ
  scores : Breakdown
  grade : String
  issues : List String
deriving DecidableEq

/-- SEOScorer.calculate_score: the overall_score field is the weighted total
rounded to two decimals, while the grade is computed from the unrounded
weighted total. -/
def calculate_score (d : SeoData) : ScoreResult :=
  { overall_score := round2 (total_score d),
    scores := breakdown d,
    grade := get_grade (total_score d),
    issues := identify_issues d (breakdown d) }

/-- Grade threshold function transcribed from the specification's words:
at least 90 is A, at least 80 is B, at least 70 is C, at least 60 is D,
anything lower is F, boundary values belonging to the higher grade. -/
def specGrade (overall : ℚ) : String :=
  if overall ≥ 90 then "A"
  else if overall ≥ 80 then "B"
  else if overall ≥ 70 then "C"
  else if overall ≥ 60 then "D"
  else "F"

/-- An image inventory of 8000 images of which exactly one lacks alt text:
image score (8000 - 1) / 8000 * 100 = 99.9875. -/
def imagesNearPerfect : ImagesData :=
  { images := List.replicate 7999 { src := "http://site.test/ok.png", alt := "pic", has_alt := true }
      ++ [{ src := "http://site.test/no.png", alt := "", has_alt := false }],
    total_images := 8000,
    images_without_alt := 1 }

/-- A link inventory of three external links (no internal bonus applies). -/
def linksThreeExternal : LinksData :=
  { internal_links := [],
    external_links := [⟨"http://other.test/a", "a"⟩, ⟨"http://other.test/b", "b"⟩,
                       ⟨"http://other.test/c", "c"⟩],
    all_links := [⟨"http://other.test/a", "a"⟩, ⟨"http://other.test/b", "b"⟩,
                  ⟨"http://other.test/c", "c"⟩],
    total_links := 3 }

/-- A crawl result whose unrounded weighted total is 89.9975: title 100,
meta 100, headings 100, images 99.9875, links (3 - 2) / 3 * 100 = 100 / 3,
performance 100, so the total is 15 + 15 + 20 + 19.9975 + 5 + 15. -/
def seoNearNinety : SeoData :=
  { title := some ⟨List.replicate 45 'a'⟩,
    meta_description := some ⟨List.replicate 130 'b'⟩,
    h1_tags := ["Welcome"],
    h2_tags := ["About"],
    images := imagesNearPerfect,
    links := linksThreeExternal,
    load_time := 1 / 2,
    page_size := 1000,
    broken_links := [⟨"http://other.test/a", 404, "a", none⟩,
                     ⟨"http://other.test/b", 404, "b", none⟩] }

/-- A link inventory of four links, one internal. -/
def linksFourOneInternal : LinksData :=
  { internal_links := [⟨"http://site.test/home", "home"⟩],
    external_links := [⟨"http://other.test/a", "a"⟩, ⟨"http://other.test/b", "b"⟩,
                       ⟨"http://other.test/c", "c"⟩],
    all_links := [⟨"http://site.test/home", "home"⟩, ⟨"http://other.test/a", "a"⟩,
                  ⟨"http://other.test/b", "b"⟩, ⟨"http://other.test/c", "c"⟩],
    total_links := 4 }

/-- The empty crawl result: every inventory empty, every count zero. -/
def seoEmpty : SeoData :=
  { title := none, meta_description := none, h1_tags := [], h2_tags := [],
    images := { images := [], total_images := 0, images_without_alt := 0 },
    links := { internal_links := [], external_links := [], all_links := [], total_links := 0 },
    load_time := 0, page_size := 0, broken_links := [] }

/-- A page with no elements at all. -/
def pageEmpty : Page :=
  { titles := [], metaDesc := none, ogDesc := none, h1s := [], h2s := [],
    imgs := [], anchors := [] }

/-- A page with one title and one anchor, used to run the orchestrator on a
concrete input. -/
def pageOneLink : Page :=
  { titles := ["Home"], metaDesc := none, ogDesc := none, h1s := ["Hi"], h2s := [],
    imgs := [], anchors := [⟨"http://site.test/about", "about"⟩] }

/-! Helper lemmas shared by the claim theorems. -/

/-- Deriving has_alt as the source does coincides with testing the trimmed
alt text for non-emptiness. -/
theorem hasAlt_eq_strip_ne (a : String) :
    (a != "" && pyStrip a != "") = (pyStrip a != "") := by
  by_cases h : a = ""
  · subst h; rfl
  · simp [h]

/-- The without-alt counter maintained by the extraction loop equals the
number of kept records whose has_alt flag is false. -/
theorem extractImagesAux_count (base_url : String) (imgs : List Img) :
    (extractImagesAux base_url imgs).2
      = ((extractImagesAux base_url imgs).1.filter (fun r => r.has_alt == false)).length := by
  induction imgs with
  | nil => rfl
  | cons img rest ih =>
    simp only [extractImagesAux]
    split
    · cases hha : (img.alt != "" && pyStrip img.alt != "") <;>
        simp [List.filter, hha, ih]
    · exact ih

/-- Every record kept by the extraction loop carries the alt text of its
img element and the derived has_alt flag. -/
theorem extractImagesAux_has_alt (base_url : String) (imgs : List Img) :
    ∀ r ∈ (extractImagesAux base_url imgs).1, r.has_alt = (pyStrip r.alt != "") := by
  induction imgs with
  | nil => intro r hr; cases hr
  | cons img rest ih =>
    intro r hr
    simp only [extractImagesAux] at hr
    by_cases hsrc : (img.src != "") = true
    · rw [if_pos hsrc] at hr
      rcases List.mem_cons.mp hr with he | ht
      · subst he
        exact hasAlt_eq_strip_ne img.alt
      · exact ih r ht
    · rw [if_neg hsrc] at hr
      exact ih r hr

/-- C7: for every crawl-result image inventory produced by extraction, the
cached images_without_alt count equals the number of ImageRecords whose
has_alt flag is false, and has_alt is true exactly when the image's alt text
is non-empty after trimming. -/
theorem images_without_alt_matches_inventory (base_url : String) (imgs : List Img) :
    (extract_images base_url imgs).images_without_alt
      = ((extract_images base_url imgs).images.filter (fun r => r.has_alt == false)).length
    ∧ ∀ r ∈ (extract_images base_url imgs).images, r.has_alt = (pyStrip r.alt != "") :=
  ⟨extractImagesAux_count base_url imgs, extractImagesAux_has_alt base_url imgs⟩

/-- Witness for C7 at a concrete inventory: one image with alt text, one
with whitespace-only alt text, one with no src at all. -/
theorem images_without_alt_matches_inventory_witness :
    (extract_images "http://site.test/" [⟨"a.png", "alt"⟩, ⟨"b.png", " "⟩, ⟨"", "x"⟩]).images_without_alt
      = ((extract_images "http://site.test/" [⟨"a.png", "alt"⟩, ⟨"b.png", " "⟩, ⟨"", "x"⟩]).images.filter
          (fun r => r.has_alt == false)).length :=
  (images_without_alt_matches_inventory "http://site.test/"
    [⟨"a.png", "alt"⟩, ⟨"b.png", " "⟩, ⟨"", "x"⟩]).1

/-- C8: the title category score is 0 when the title is absent (Python
falsiness also treats an empty title string as absent), and otherwise starts
at 100, subtracts 30 below 30 characters, subtracts 20 above 60 characters,
and is floored at 0 — so it is 70, 80 or 100 depending only on the length. -/
theorem title_score_from_length :
    score_title none = 0 ∧ score_title (some "") = 0
    ∧ ∀ s : String, s ≠ "" → score_title (some s)
        = if s.length < 30 then 70 else if s.length > 60 then 80 else 100 := by
  refine ⟨rfl, rfl, fun s hs => ?_⟩
  simp only [score_title, if_neg hs]
  split_ifs <;> norm_num

/-- Witness for C8 at a concrete 20-character title, which scores
100 - 30 = 70. -/
theorem title_score_from_length_witness :
    score_title (some ⟨List.replicate 20 'a'⟩) = 70 :=
  (title_score_from_length.2.2 ⟨List.replicate 20 'a'⟩ (by decide)).trans (by decide)

/-- C6: the links category score is the neutral 50 with no links at all, and
otherwise the working-link percentage, plus a bonus of 10 capped at 100 when
at least one internal link exists. -/
theorem links_score_formula (links_data : LinksData) (broken_links : List BrokenLink) :
    (links_data.total_links = 0 → score_links links_data broken_links = 50)
    ∧ (links_data.total_links ≠ 0 → links_data.internal_links = [] →
        score_links links_data broken_links
          = ((links_data.total_links : ℚ) - broken_links.length)
              / links_data.total_links * 100)
    ∧ (links_data.total_links ≠ 0 → links_data.internal_links ≠ [] →
        score_links links_data broken_links
          = min 100 (((links_data.total_links : ℚ) - broken_links.length)
              / links_data.total_links * 100 + 10)) := by
  unfold score_links
  refine ⟨fun h => by rw [if_pos h], fun h hint => ?_, fun h hint => ?_⟩
  · rw [if_neg h]
    simp [hint]
  · rw [if_neg h]
    simp [List.isEmpty_iff, hint]

/-- Witness for C6: four links, one broken, at least one internal link,
scoring (4 - 1) / 4 * 100 + 10 = 85. -/
theorem links_score_formula_witness :
    score_links linksFourOneInternal [⟨"http://other.test/b", 404, "b", none⟩] = 85 :=
  ((links_score_formula linksFourOneInternal [⟨"http://other.test/b", 404, "b", none⟩]).2.2
      (by decide) (by decide)).trans (by norm_num [linksFourOneInternal])

/-- When a probe of a link yields a broken record, the record carries the
link's URL. -/
theorem check_link_url (probe : String → ProbeOutcome) (l : LinkData) (r : BrokenLink)
    (h : check_link probe l = some r) : r.url = l.url := by
  cases hp : probe l.url with
  | status code =>
    simp only [check_link, hp] at h
    split at h
    · cases h
      rfl
    · cases h
  | failure =>
    simp only [check_link, hp] at h
    cases h
    rfl

/-- Unfolding equation of the validator on a non-empty batch. -/
theorem check_broken_links_cons (probe : String → ProbeOutcome) (l : LinkData)
    (ls : List LinkData) :
    check_broken_links probe (l :: ls)
      = match check_link probe l with
        | none => check_broken_links probe ls
        | some r => r :: check_broken_links probe ls := by
  simp only [check_broken_links, List.map_cons, List.filterMap_cons, id_eq]
  cases check_link probe l <;> rfl

/-- C10: with all probe outcomes fixed, the broken-link records returned by
the validator appear in the same relative order as their links in the
submitted list: the sequence of broken URLs is a sublist of the sequence of
submitted URLs. -/
theorem broken_links_input_ordered (probe : String → ProbeOutcome) (links : List LinkData) :
    List.Sublist ((check_broken_links probe links).map BrokenLink.url)
      (links.map LinkData.url) := by
  induction links with
  | nil => exact List.Sublist.refl _
  | cons l ls ih =>
    cases h : check_link probe l with
    | none =>
      rw [check_broken_links_cons, h]
      exact ih.cons l.url
    | some r =>
      rw [check_broken_links_cons, h]
      have hr : r.url = l.url := check_link_url probe l r h
      show List.Sublist (r.url :: (check_broken_links probe ls).map BrokenLink.url)
        (l.url :: ls.map LinkData.url)
      rw [hr]
      exact ih.cons₂ l.url

/-- Every link the extraction loop classifies as internal has the netloc of
the base URL, and every external one has a different netloc, under exact
case-sensitive string comparison. -/
theorem extractLinksAux_netloc (base_url : String) (anchors : List Anchor) :
    ((extractLinksAux base_url anchors).1.all
        (fun l => netloc l.url == netloc base_url) = true)
    ∧ ((extractLinksAux base_url anchors).2.all
        (fun l => !(netloc l.url == netloc base_url)) = true) := by
  induction anchors with
  | nil => exact ⟨rfl, rfl⟩
  | cons a rest ih =>
    simp only [extractLinksAux]
    split
    · exact ih
    · split
      next heq =>
        refine ⟨?_, ih.2⟩
        simp [List.all_cons, heq, ih.1]
      next hne =>
        refine ⟨ih.1, ?_⟩
        simp [List.all_cons, hne, ih.2]

/-- C2 amended: link classification compares the resolved link's netloc to
the crawl target's netloc with exact case-sensitive string equality: a link
is internal exactly when the two netloc strings are identical. -/
theorem link_classification_exact_netloc (base_url : String) (anchors : List Anchor) :
    ((extract_links base_url anchors).internal_links.all
        (fun l => netloc l.url == netloc base_url) = true)
    ∧ ((extract_links base_url anchors).external_links.all
        (fun l => !(netloc l.url == netloc base_url)) = true) :=
  extractLinksAux_netloc base_url anchors

/-- Counterexample to C2 as stated: two URLs whose hosts differ only in
letter case are classified as external, not internal. -/
theorem link_classification_case_cex :
    (extract_links "http://Example.com/" [⟨"http://example.com/page", "link"⟩]).internal_links = []
    ∧ (extract_links "http://Example.com/" [⟨"http://example.com/page", "link"⟩]).external_links
        = [⟨"http://example.com/page", "link"⟩] := by
  exact ⟨by decide, by decide⟩

/-- C4: each per-link probe failure is converted to a broken-link record
with status_code 0 and the connection-failure marker; when every probe
fails, the validator still returns a record for every link of the batch; and
the record a link contributes depends only on that link's own probe
outcome. -/
theorem probe_failures_isolated (probe : String → ProbeOutcome) (links : List LinkData) :
    (∀ l ∈ links, probe l.url = ProbeOutcome.failure →
        ({ url := l.url, status_code := 0, text := l.text,
           error := some "Connection failed" } : BrokenLink) ∈ check_broken_links probe links)
    ∧ ((∀ l ∈ links, probe l.url = ProbeOutcome.failure) →
        (check_broken_links probe links).length = links.length)
    ∧ (∀ (probe2 : String → ProbeOutcome) (l : LinkData), probe l.url = probe2 l.url →
        check_link probe l = check_link probe2 l) := by
  refine ⟨fun l hl hfail => ?_, fun hall => ?_, fun probe2 l h => ?_⟩
  · have hcl : check_link probe l = some
        { url := l.url, status_code := 0, text := l.text, error := some "Connection failed" } := by
      simp only [check_link, hfail]
    refine List.mem_filterMap.mpr ⟨check_link probe l, List.mem_map_of_mem _ hl, ?_⟩
    rw [hcl]
    rfl
  · induction links with
    | nil => rfl
    | cons l ls ih =>
      have hl : check_link probe l = some
          { url := l.url, status_code := 0, text := l.text, error := some "Connection failed" } := by
        simp only [check_link, hall l (List.mem_cons_self l ls)]
      rw [check_broken_links_cons, hl]
      show (check_broken_links probe ls).length + 1 = ls.length + 1
      rw [ih (fun x hx => hall x (List.mem_cons_of_mem _ hx))]
  · simp only [check_link, h]

/-- Witness for C4 at a concrete batch whose only probe fails. -/
theorem probe_failures_isolated_witness :
    ({ url := "http://dead.test/", status_code := 0, text := "d",
       error := some "Connection failed" } : BrokenLink)
      ∈ check_broken_links (fun _ => ProbeOutcome.failure) [⟨"http://dead.test/", "d"⟩] :=
  (probe_failures_isolated (fun _ => ProbeOutcome.failure) [⟨"http://dead.test/", "d"⟩]).1
    ⟨"http://dead.test/", "d"⟩ (by decide) rfl

/-- C1 amended: the letter grade is the threshold function (at least 90 is
A, at least 80 is B, at least 70 is C, at least 60 is D, else F, boundaries
belonging to the higher grade) applied to the UNROUNDED weighted total,
while overall_score is that total rounded to two decimals; the two can
disagree when rounding crosses a grade boundary. -/
theorem grade_from_unrounded_total (d : SeoData) :
    (calculate_score d).grade = specGrade (total_score d)
    ∧ (calculate_score d).overall_score = round2 (total_score d) :=
  ⟨rfl, rfl⟩

set_option maxRecDepth 10000 in
/-- Counterexample to C1 as stated: a crawl result whose unrounded weighted
total is 89.9975 has overall_score 90.0 yet grade "B", while the threshold
function applied to the overall score of 90.0 gives "A". -/
theorem grade_vs_rounded_overall_cex :
    (calculate_score seoNearNinety).overall_score = 90
    ∧ (calculate_score seoNearNinety).grade = "B"
    ∧ specGrade ((calculate_score seoNearNinety).overall_score) = "A" := by
  have h1 : score_title seoNearNinety.title = 100 := by
    show score_title (some ⟨List.replicate 45 'a'⟩) = 100
    simp only [score_title]
    rw [if_neg (by decide), if_neg (by decide), if_neg (by decide)]
    norm_num
  have h2 : score_meta_description seoNearNinety.meta_description = 100 := by
    show score_meta_description (some ⟨List.replicate 130 'b'⟩) = 100
    simp only [score_meta_description]
    rw [if_neg (by decide), if_neg (by decide), if_neg (by decide)]
    norm_num
  have h3 : score_headings seoNearNinety.h1_tags seoNearNinety.h2_tags = 100 := by
    show score_headings ["Welcome"] ["About"] = 100
    simp only [score_headings]
    rw [if_neg (by decide), if_neg (by decide), if_neg (by decide)]
    norm_num
  have h4 : score_images seoNearNinety.images = 7999 / 80 := by
    show score_images imagesNearPerfect = 7999 / 80
    simp only [score_images, imagesNearPerfect]
    norm_num
  have h5 : score_links seoNearNinety.links seoNearNinety.broken_links = 100 / 3 := by
    show score_links linksThreeExternal seoNearNinety.broken_links = 100 / 3
    simp only [score_links, linksThreeExternal]
    norm_num [seoNearNinety]
  have h6 : score_performance seoNearNinety.load_time seoNearNinety.page_size = 100 := by
    show score_performance (1 / 2) 1000 = 100
    simp only [score_performance]
    norm_num
  have htot : total_score seoNearNinety = 35999 / 400 := by
    unfold total_score breakdown
    rw [h1, h2, h3, h4, h5, h6]
    norm_num
  have hfloor : (⌊(35999 / 4 : ℚ)⌋ : ℤ) = 8999 := by
    rw [Int.floor_eq_iff]
    norm_num
  have hround : round2 (total_score seoNearNinety) = 90 := by
    rw [htot]
    unfold round2 roundHalfEven
    rw [show (35999 / 400 * 100 : ℚ) = 35999 / 4 by norm_num, hfloor]
    rw [if_neg (by norm_num), if_pos (by norm_num)]
    norm_num
  refine ⟨hround, ?_, ?_⟩
  · show get_grade (total_score seoNearNinety) = "B"
    rw [htot]
    unfold get_grade
    rw [if_neg (by norm_num), if_pos (by norm_num)]
  · rw [show (calculate_score seoNearNinety).overall_score
        = round2 (total_score seoNearNinety) from rfl, hround]
    unfold specGrade
    rw [if_pos (by norm_num)]

/-- C9 amended: any stage failure (fetch or parse) makes crawl raise one
generic exception whose message prepends "Failed to crawl URL: " to the
underlying failure's message, with no partial result; when both stages
succeed, the fully assembled crawl result is returned. -/
theorem crawl_all_or_nothing (url : String) (fetch : Except String (String × ℚ))
    (parse : String → Except String Page) (probe : String → ProbeOutcome) :
    (∀ e, fetch = .error e →
        crawl url fetch parse probe = .error ("Failed to crawl URL: " ++ e))
    ∧ (∀ html load_time e, fetch = .ok (html, load_time) → parse html = .error e →
        crawl url fetch parse probe = .error ("Failed to crawl URL: " ++ e))
    ∧ (∀ html load_time page, fetch = .ok (html, load_time) → parse html = .ok page →
        crawl url fetch parse probe = .ok (assemble url html load_time page probe)) := by
  refine ⟨fun e he => ?_, fun html lt e hf hp => ?_, fun html lt page hf hp => ?_⟩
  · rw [he]
    rfl
  · rw [hf]
    simp only [crawl, hp]
  · rw [hf]
    simp only [crawl, hp]

/-- Counterexample to C9 as stated: the raised error is not distinguishable
by stage — a fetch failure and a parse failure with the same underlying
message produce the identical error value. -/
theorem crawl_stage_indistinguishable_cex :
    crawl "http://site.test/" (.error "boom") (fun _ => .ok pageEmpty) (fun _ => .status 200)
      = crawl "http://site.test/" (.ok ("<html></html>", 1)) (fun _ => .error "boom")
          (fun _ => .status 200) := rfl

/-- Witness for C9 at a concrete fetch failure. -/
theorem crawl_all_or_nothing_witness :
    crawl "http://site.test/" (.error "no route") (fun _ => .ok pageEmpty)
        (fun _ => ProbeOutcome.status 200) = .error "Failed to crawl URL: no route" :=
  (crawl_all_or_nothing "http://site.test/" (.error "no route") (fun _ => .ok pageEmpty)
      (fun _ => ProbeOutcome.status 200)).1 "no route" rfl

/-- Two probe oracles agreeing on every URL of a batch validate the batch
identically. -/
theorem check_broken_links_congr (p1 p2 : String → ProbeOutcome) (links : List LinkData)
    (h : ∀ l ∈ links, p1 l.url = p2 l.url) :
    check_broken_links p1 links = check_broken_links p2 links := by
  induction links with
  | nil => rfl
  | cons l ls ih =>
    rw [check_broken_links_cons, check_broken_links_cons]
    have hl : check_link p1 l = check_link p2 l := by
      simp only [check_link, h l (List.mem_cons_self l ls)]
    rw [hl, ih (fun x hx => h x (List.mem_cons_of_mem _ hx))]

/-- Two probe oracles agreeing on the first 50 combined links of a page
produce the same assembled crawl result. -/
theorem assemble_probe_congr (url html : String) (load_time : ℚ) (page : Page)
    (p1 p2 : String → ProbeOutcome)
    (h : ∀ l ∈ (extract_links url page.anchors).all_links.take 50, p1 l.url = p2 l.url) :
    assemble url html load_time page p1 = assemble url html load_time page p2 := by
  unfold assemble
  rw [check_broken_links_congr p1 p2 _ h]

/-- C5: a successful crawl validates exactly the first 50 entries of the
extractor's combined link list (internal links first, then external links);
every broken-link record's URL comes from those first 50 entries, and
changing the probe oracle anywhere outside them leaves the crawl result
unchanged. -/
theorem link_validation_first_fifty (url : String) (fetch : Except String (String × ℚ))
    (parse : String → Except String Page) (probe probe2 : String → ProbeOutcome)
    (d : SeoData) (h : crawl url fetch parse probe = .ok d)
    (hagree : ∀ l ∈ d.links.all_links.take 50, probe l.url = probe2 l.url) :
    d.links.all_links = d.links.internal_links ++ d.links.external_links
    ∧ d.broken_links = check_broken_links probe (d.links.all_links.take 50)
    ∧ (∀ r ∈ d.broken_links, r.url ∈ (d.links.all_links.take 50).map LinkData.url)
    ∧ crawl url fetch parse probe2 = .ok d := by
  cases fetch with
  | error e =>
    exact absurd h (by simp [crawl])
  | ok pr =>
    obtain ⟨html, lt⟩ := pr
    cases hp : parse html with
    | error e =>
      rw [show crawl url (.ok (html, lt)) parse probe
          = .error ("Failed to crawl URL: " ++ e) by simp [crawl, hp]] at h
      exact absurd h (by simp)
    | ok page =>
      have hd : assemble url html lt page probe = d := by
        have h' := h
        simp only [crawl, hp] at h'
        exact Except.ok.inj h'
      subst hd
      refine ⟨rfl, rfl, fun r hr => ?_, ?_⟩
      · have hr' : r ∈ (((extract_links url page.anchors).all_links.take 50).map
            (check_link probe)).filterMap id := hr
        obtain ⟨o, ho, hor⟩ := List.mem_filterMap.mp hr'
        obtain ⟨l, hl, hol⟩ := List.mem_map.mp ho
        have hcl : check_link probe l = some r := by
          rw [hol]
          exact hor
        rw [check_link_url probe l r hcl]
        exact List.mem_map_of_mem LinkData.url hl
      · have ha := assemble_probe_congr url html lt page probe probe2 hagree
        simp only [crawl, hp]
        rw [← ha]

/-- Witness for C5 at a concrete successful crawl of a one-link page. -/
theorem link_validation_first_fifty_witness :
    let d := assemble "http://site.test/" "<html></html>" 1 pageOneLink
      (fun _ => ProbeOutcome.failure)
    d.links.all_links = d.links.internal_links ++ d.links.external_links :=
  (link_validation_first_fifty "http://site.test/" (.ok ("<html></html>", 1))
      (fun _ => .ok pageOneLink) (fun _ => ProbeOutcome.failure)
      (fun _ => ProbeOutcome.failure) _ rfl (fun _ _ => rfl)).1

/-- Half-even rounding returns either the floor or the floor plus one. -/
theorem roundHalfEven_cases (q : ℚ) :
    roundHalfEven q = ⌊q⌋ ∨ roundHalfEven q = ⌊q⌋ + 1 := by
  unfold roundHalfEven
  split_ifs <;> [exact Or.inl rfl; exact Or.inr rfl; exact Or.inl rfl; exact Or.inr rfl]

/-- Half-even rounding of a non-negative rational is non-negative. -/
theorem roundHalfEven_nonneg (q : ℚ) (h : 0 ≤ q) : 0 ≤ roundHalfEven q := by
  have hf : 0 ≤ ⌊q⌋ := Int.floor_nonneg.mpr h
  rcases roundHalfEven_cases q with he | he <;> rw [he] <;> omega

/-- Half-even rounding never exceeds an integer bound of its argument. -/
theorem roundHalfEven_le (q : ℚ) (n : ℤ) (h : q ≤ (n : ℚ)) : roundHalfEven q ≤ n := by
  have hfn : ⌊q⌋ ≤ n := by
    have := Int.floor_le_floor h
    simpa using this
  have hfl : (⌊q⌋ : ℚ) ≤ q := Int.floor_le q
  unfold roundHalfEven
  split_ifs with h1 h2 h3
  · exact hfn
  · have hlt : (⌊q⌋ : ℚ) < (n : ℚ) := by linarith
    have : ⌊q⌋ < n := by exact_mod_cast hlt
    omega
  · exact hfn
  · have heq : q - (⌊q⌋ : ℚ) = 1 / 2 := le_antisymm (not_lt.mp h2) (not_lt.mp h1)
    have hlt : (⌊q⌋ : ℚ) < (n : ℚ) := by linarith
    have : ⌊q⌋ < n := by exact_mod_cast hlt
    omega

/-- Rounding to two decimals keeps a non-negative value non-negative. -/
theorem round2_nonneg (q : ℚ) (h : 0 ≤ q) : 0 ≤ round2 q := by
  unfold round2
  have h0 : (0 : ℤ) ≤ roundHalfEven (q * 100) := roundHalfEven_nonneg _ (by linarith)
  have h1 : (0 : ℚ) ≤ ((roundHalfEven (q * 100) : ℤ) : ℚ) := by exact_mod_cast h0
  linarith

/-- Rounding to two decimals keeps a value at most 100 at most 100. -/
theorem round2_le_hundred (q : ℚ) (h : q ≤ 100) : round2 q ≤ 100 := by
  unfold round2
  have h0 : roundHalfEven (q * 100) ≤ 10000 :=
    roundHalfEven_le _ 10000 (by push_cast; linarith)
  have h1 : ((roundHalfEven (q * 100) : ℤ) : ℚ) ≤ 10000 := by exact_mod_cast h0
  linarith

/-- The title category score lies in the unit-hundred interval. -/
theorem score_title_bounds (t : Option String) :
    0 ≤ score_title t ∧ score_title t ≤ 100 := by
  cases t with
  | none => exact ⟨le_refl 0, by norm_num [score_title]⟩
  | some s =>
    constructor <;> (simp only [score_title]; split_ifs <;> norm_num)

/-- The meta-description category score lies in the unit-hundred interval. -/
theorem score_meta_bounds (t : Option String) :
    0 ≤ score_meta_description t ∧ score_meta_description t ≤ 100 := by
  cases t with
  | none => exact ⟨le_refl 0, by norm_num [score_meta_description]⟩
  | some s =>
    constructor <;> (simp only [score_meta_description]; split_ifs <;> norm_num)

/-- The headings category score lies in the unit-hundred interval. -/
theorem score_headings_bounds (h1_tags h2_tags : List String) :
    0 ≤ score_headings h1_tags h2_tags ∧ score_headings h1_tags h2_tags ≤ 100 := by
  constructor <;> (simp only [score_headings]; split_ifs <;> norm_num)

/-- The performance category score lies in the unit-hundred interval. -/
theorem score_performance_bounds (load_time : ℚ) (page_size : Nat) :
    0 ≤ score_performance load_time page_size
    ∧ score_performance load_time page_size ≤ 100 := by
  constructor <;> (simp only [score_performance]; split_ifs <;> norm_num)

/-- The images category score lies in the unit-hundred interval whenever the
cached counts are consistent. -/
theorem score_images_bounds (idata : ImagesData)
    (h : idata.images_without_alt ≤ idata.total_images) :
    0 ≤ score_images idata ∧ score_images idata ≤ 100 := by
  unfold score_images
  split_ifs with h0
  · exact ⟨by norm_num, by norm_num⟩
  · have ht : (0 : ℚ) < idata.total_images := by
      exact_mod_cast Nat.pos_of_ne_zero h0
    have hw : (idata.images_without_alt : ℚ) ≤ idata.total_images := by exact_mod_cast h
    have hw0 : (0 : ℚ) ≤ idata.images_without_alt := by positivity
    have hdiv0 : (0 : ℚ) ≤ ((idata.total_images : ℚ) - idata.images_without_alt)
        / idata.total_images := div_nonneg (by linarith) (le_of_lt ht)
    have hdiv1 : ((idata.total_images : ℚ) - idata.images_without_alt)
        / idata.total_images ≤ 1 := (div_le_one ht).mpr (by linarith)
    constructor
    · exact mul_nonneg hdiv0 (by norm_num)
    · calc ((idata.total_images : ℚ) - idata.images_without_alt)
            / idata.total_images * 100 ≤ 1 * 100 :=
              mul_le_mul_of_nonneg_right hdiv1 (by norm_num)
        _ = 100 := by norm_num

/-- The links category score lies in the unit-hundred interval whenever the
broken-link count does not exceed the total link count. -/
theorem score_links_bounds (links_data : LinksData) (broken_links : List BrokenLink)
    (h : broken_links.length ≤ links_data.total_links) :
    0 ≤ score_links links_data broken_links
    ∧ score_links links_data broken_links ≤ 100 := by
  simp only [score_links]
  have hbounds : links_data.total_links ≠ 0 →
      (0 : ℚ) ≤ ((links_data.total_links : ℚ) - broken_links.length)
          / links_data.total_links * 100
      ∧ ((links_data.total_links : ℚ) - broken_links.length)
          / links_data.total_links * 100 ≤ 100 := by
    intro h0
    have ht : (0 : ℚ) < links_data.total_links := by
      exact_mod_cast Nat.pos_of_ne_zero h0
    have hb : (broken_links.length : ℚ) ≤ links_data.total_links := by exact_mod_cast h
    have hdiv0 : (0 : ℚ) ≤ ((links_data.total_links : ℚ) - broken_links.length)
        / links_data.total_links := div_nonneg (by linarith) (le_of_lt ht)
    have hdiv1 : ((links_data.total_links : ℚ) - broken_links.length)
        / links_data.total_links ≤ 1 := (div_le_one ht).mpr (by linarith)
    constructor
    · exact mul_nonneg hdiv0 (by norm_num)
    · calc ((links_data.total_links : ℚ) - broken_links.length)
            / links_data.total_links * 100 ≤ 1 * 100 :=
              mul_le_mul_of_nonneg_right hdiv1 (by norm_num)
        _ = 100 := by norm_num
  split_ifs with h0 hint
  · exact ⟨by norm_num, by norm_num⟩
  · exact hbounds h0
  · exact ⟨le_min (by norm_num) (by linarith [(hbounds h0).1]), min_le_left _ _⟩

/-- C3: with consistent counts (images without alt at most the image total,
broken links at most the link total), every category score lies in [0, 100]
and the overall score lies in [0, 100]. -/
theorem scores_within_bounds (d : SeoData)
    (himg : d.images.images_without_alt ≤ d.images.total_images)
    (hlnk : d.broken_links.length ≤ d.links.total_links) :
    (0 ≤ (breakdown d).title ∧ (breakdown d).title ≤ 100)
    ∧ (0 ≤ (breakdown d).meta_description ∧ (breakdown d).meta_description ≤ 100)
    ∧ (0 ≤ (breakdown d).headings ∧ (breakdown d).headings ≤ 100)
    ∧ (0 ≤ (breakdown d).images ∧ (breakdown d).images ≤ 100)
    ∧ (0 ≤ (breakdown d).links ∧ (breakdown d).links ≤ 100)
    ∧ (0 ≤ (breakdown d).performance ∧ (breakdown d).performance ≤ 100)
    ∧ (0 ≤ (calculate_score d).overall_score
        ∧ (calculate_score d).overall_score ≤ 100) := by
  have h1 := score_title_bounds d.title
  have h2 := score_meta_bounds d.meta_description
  have h3 := score_headings_bounds d.h1_tags d.h2_tags
  have h4 := score_images_bounds d.images himg
  have h5 := score_links_bounds d.links d.broken_links hlnk
  have h6 := score_performance_bounds d.load_time d.page_size
  have htot : 0 ≤ total_score d ∧ total_score d ≤ 100 := by
    unfold total_score breakdown
    constructor <;>
      linarith [h1.1, h1.2, h2.1, h2.2, h3.1, h3.2, h4.1, h4.2, h5.1, h5.2, h6.1, h6.2]
  exact ⟨h1, h2, h3, h4, h5, h6, round2_nonneg _ htot.1, round2_le_hundred _ htot.2⟩

/-- Witness for C3 at the empty crawl result, whose counts are trivially
consistent. -/
theorem scores_within_bounds_witness :
    0 ≤ (calculate_score seoEmpty).overall_score
    ∧ (calculate_score seoEmpty).overall_score ≤ 100 :=
  (scores_within_bounds seoEmpty (by decide) (by decide)).2.2.2.2.2.2

end SiteSage
